import Mathlib

/-!
Verification of the AIR_canvas gesture-drawing core.

The definitions below are a shallow embedding of the repository:
- `fingersUp`, `getFingerTip` embed `src/hand_detector.py` (`HandDetector.fingers_up`,
  `HandDetector.get_finger_tip`);
- `check_selection` embeds `src/color_palette.py` (`ColorPalette.check_selection`
  with the box table built in `ColorPalette.__init__`), with the Python loop over
  the six literal boxes unrolled into a chain of conditionals;
- `appDispatch` / `recvApp` embed the gesture section of `AirCanvasProcessor.recv`
  in `app.py`; `mainDispatch` / `recvMain` embed the gesture section of the main
  loop in `main.py`;
- the stroke canvas is embedded as the trace of segment draws applied to it
  (each `cv2.line` call appends one `Segment`); a full clear resets the trace;
- `bgr2gray`, `maskInv`, `compositePixel` embed the per-pixel canvas-over-frame
  merge (cvtColor BGR2GRAY with OpenCV fixed-point coefficients, THRESH_BINARY_INV
  at 20, bitwise and, bitwise or);
- `clearCanvas` embeds the pixel-level effect of replacing the canvas by
  `np.zeros` (every pixel becomes the zero BGR triple).
-/

/-- One hand landmark in pixel coordinates, as stored in
`HandDetector.landmark_list` (the id component is the list position). -/
structure Landmark where
  x : Int
  y : Int
deriving Repr, DecidableEq, Inhabited

/-- A per-frame landmark snapshot: empty when no hand is detected, otherwise
21 entries indexed by the fixed anatomical numbering. -/
abbrev Snapshot := List Landmark

/-- `HandDetector.fingers_up`: the empty snapshot gives the zero vector; the
thumb bit compares landmark 4 x against landmark 3 x, and each remaining
finger bit compares the tip y (landmarks 8, 12, 16, 20) against the joint
two positions back (tip index minus 2). -/
def fingersUp (lm : Snapshot) : List Nat :=
  if lm.length = 0 then [0, 0, 0, 0, 0]
  else
    (if (lm.getD 4 default).x < (lm.getD 3 default).x then 1 else 0) ::
    [8, 12, 16, 20].map (fun tip =>
      if (lm.getD tip default).y < (lm.getD (tip - 2) default).y then 1 else 0)

/-- `HandDetector.get_finger_tip(1)`: the index fingertip, landmark 8;
none when the snapshot is empty. -/
def getFingerTip (lm : Snapshot) : Option (Int × Int) :=
  if lm.length = 0 then none
  else some ((lm.getD 8 default).x, (lm.getD 8 default).y)

/-- A BGR color triple. -/
abbrev Color := Nat × Nat × Nat

/-- The six palette swatch colors of `ColorPalette.__init__`, in box order:
purple, blue, green, red, yellow, eraser (black). -/
def paletteColors : List Color :=
  [(255, 0, 255), (255, 0, 0), (0, 255, 0), (0, 0, 255), (0, 255, 255), (0, 0, 0)]

/-- Color of palette box `i`. -/
def colorOf (i : Nat) : Color := paletteColors.getD i (0, 0, 0)

/-- Containment test of `ColorPalette.check_selection` for box `i`:
`x1 <= x <= x2 and y1 <= y <= y2` with `x1 = i * (W // 6)`,
`x2 = (i+1) * (W // 6)`, `y1 = 0`, `y2 = H`. -/
abbrev insideBox (W H : Nat) (i : Nat) (x y : Int) : Prop :=
  ((i * (W / 6) : Nat) : Int) ≤ x ∧ x ≤ (((i + 1) * (W / 6) : Nat) : Int) ∧
    0 ≤ y ∧ y ≤ (H : Int)

/-- `ColorPalette.check_selection`: none when `y > header_height`; otherwise the
loop over the six boxes returns the color of the first box containing the
point (here unrolled over the six literal boxes). -/
def check_selection (W H : Nat) (x y : Int) : Option Color :=
  if y > (H : Int) then none
  else if insideBox W H 0 x y then some (255, 0, 255)
  else if insideBox W H 1 x y then some (255, 0, 0)
  else if insideBox W H 2 x y then some (0, 255, 0)
  else if insideBox W H 3 x y then some (0, 0, 255)
  else if insideBox W H 4 x y then some (0, 255, 255)
  else if insideBox W H 5 x y then some (0, 0, 0)
  else none

/-- One `cv2.line` call on the stroke canvas: endpoints, color, thickness. -/
structure Segment where
  p1 : Int × Int
  p2 : Int × Int
  color : Color
  thickness : Nat
deriving Repr, DecidableEq

/-- Mutable state of the streamlit shell (`AirCanvasProcessor`): current color,
brush thickness, eraser flag, previous cursor, and the canvas as the trace of
segment draws since the last clear. -/
structure AppState where
  draw_color : Color
  brush_thickness : Nat
  is_eraser_mode : Bool
  prev : Int × Int
  canvas : List Segment
deriving Repr, DecidableEq

/-- Mutable state of the desktop shell (`main`): current color, brush
thickness (never reassigned by any gesture), previous cursor, canvas trace. -/
structure MainState where
  draw_color : Color
  brush_thickness : Nat
  prev : Int × Int
  canvas : List Segment
deriving Repr, DecidableEq

/-- Gesture section of `AirCanvasProcessor.recv` (app.py lines 94-148), given
the finger vector and the index fingertip of a detected hand. The shell uses
a 640-wide palette with an 80-pixel header, brush thickness 15 and eraser
thickness 50. -/
def appDispatch (fingers : List Nat) (tip : Int × Int) (s : AppState) : AppState :=
  if fingers = [0, 1, 1, 0, 0] then
    let s := { s with prev := (0, 0) }
    match check_selection 640 80 tip.1 tip.2 with
    | some c =>
        if c = (0, 0, 0) then
          { s with draw_color := c, is_eraser_mode := true, brush_thickness := 50 }
        else
          { s with draw_color := c, is_eraser_mode := false, brush_thickness := 15 }
    | none => s
  else if fingers = [0, 1, 0, 0, 0] then
    let p := if s.prev = ((0 : Int), (0 : Int)) then tip else s.prev
    { s with canvas := s.canvas ++ [⟨p, tip, s.draw_color, s.brush_thickness⟩],
             prev := tip }
  else if fingers = [1, 1, 1, 1, 1] then
    { s with canvas := [], prev := (0, 0) }
  else if fingers = [0, 0, 0, 0, 0] then
    { s with is_eraser_mode := true, draw_color := (0, 0, 0),
             brush_thickness := 50, prev := (0, 0) }
  else
    { s with prev := (0, 0) }

/-- Gesture section of the main loop in `main.py` (lines 121-167), given the
finger vector and the index fingertip of a detected hand. The shell uses a
1280-wide palette with the default 100-pixel header. Note there is no fist
branch: `[0,0,0,0,0]` reaches the final else. -/
def mainDispatch (fingers : List Nat) (tip : Int × Int) (s : MainState) : MainState :=
  if fingers = [0, 1, 1, 0, 0] then
    let s := { s with prev := (0, 0) }
    match check_selection 1280 100 tip.1 tip.2 with
    | some c => { s with draw_color := c }
    | none => s
  else if fingers = [0, 1, 0, 0, 0] then
    let p := if s.prev = ((0 : Int), (0 : Int)) then tip else s.prev
    { s with canvas := s.canvas ++ [⟨p, tip, s.draw_color, s.brush_thickness⟩],
             prev := tip }
  else if fingers = [1, 1, 1, 1, 1] then
    { s with canvas := [], prev := (0, 0) }
  else
    { s with prev := (0, 0) }

/-- Per-frame gesture handling of `AirCanvasProcessor.recv`: when no hand is
detected (`len(landmark_list) == 0`) the gesture block is skipped entirely. -/
def recvApp (lm : Snapshot) (s : AppState) : AppState :=
  if lm.length = 0 then s
  else
    match getFingerTip lm with
    | some tip => appDispatch (fingersUp lm) tip s
    | none => s

/-- Per-frame gesture handling of the `main.py` loop: when no hand is detected
the gesture block is skipped entirely. -/
def recvMain (lm : Snapshot) (s : MainState) : MainState :=
  if lm.length = 0 then s
  else
    match getFingerTip lm with
    | some tip => mainDispatch (fingersUp lm) tip s
    | none => s

/-- One BGR pixel, channels as 8-bit machine naturals. -/
structure Pixel where
  b : Nat
  g : Nat
  r : Nat
deriving Repr, DecidableEq

/-- OpenCV BGR-to-gray luminance with the fixed-point coefficients used by
`cvtColor(..., COLOR_BGR2GRAY)`: round((4899 r + 9617 g + 1868 b) / 2^14). -/
def bgr2gray (p : Pixel) : Nat :=
  (1868 * p.b + 9617 * p.g + 4899 * p.r + 8192) / 16384

/-- The inverse mask of `threshold(gray, 20, 255, THRESH_BINARY_INV)`:
255 where the canvas is background (gray at most 20), 0 where drawn. -/
def maskInv (p : Pixel) : Nat := if bgr2gray p > 20 then 0 else 255

/-- Per-pixel canvas-over-frame merge of both shells:
`bitwise_and(frame, mask)` then `bitwise_or(..., canvas)`, channelwise. -/
def compositePixel (f c : Pixel) : Pixel :=
  ⟨(f.b &&& maskInv c) ||| c.b, (f.g &&& maskInv c) ||| c.g, (f.r &&& maskInv c) ||| c.r⟩

/-- The all-zero background pixel of a freshly created canvas. -/
def backgroundPixel : Pixel := ⟨0, 0, 0⟩

/-- A pixel canvas as a function from (row, column) to pixel. -/
abbrev PixelCanvas := Nat → Nat → Pixel

/-- Pixel-level effect of `canvas = np.zeros((H, W, 3), np.uint8)`: the old
buffer is discarded and every pixel becomes background. -/
def clearCanvas (_c : PixelCanvas) : PixelCanvas := fun _ _ => backgroundPixel

/-- All 32 five-bit finger vectors, thumb bit first. -/
def allFingerVectors : List (List Nat) :=
  (List.range 32).map (fun n => [n / 16 % 2, n / 8 % 2, n / 4 % 2, n / 2 % 2, n % 2])

/-- The four finger patterns with an active gesture branch, in dispatch order:
selection, drawing, clear, eraser. -/
def activePatterns : List (List Nat) :=
  [[0, 1, 1, 0, 0], [0, 1, 0, 0, 0], [1, 1, 1, 1, 1], [0, 0, 0, 0, 0]]

/-- A synthetic 21-landmark snapshot with only the index finger extended:
landmark 8 sits higher on screen than landmark 6, every other tip is level
with its comparison joint and the thumb tip is level with landmark 3. -/
def syntheticSnapshot : Snapshot :=
  (List.range 21).map (fun i => if i = 8 then ⟨40, 10⟩ else ⟨30, 50⟩)

/-- C1: every 5-bit finger vector outside the four active patterns reaches the
idle fallback in both shells: the canvas trace is not mutated, the drawing
color and thickness are unchanged, and the previous cursor is reset to the
(0,0) sentinel; exactly 28 of the 32 vectors are outside the patterns. -/
theorem c1_idle_fallback (v : List Nat) (hv : v ∈ allFingerVectors)
    (hp : v ∉ activePatterns) (tip : Int × Int) (s : AppState) (m : MainState) :
    (appDispatch v tip s).canvas = s.canvas ∧
    (appDispatch v tip s).draw_color = s.draw_color ∧
    (appDispatch v tip s).brush_thickness = s.brush_thickness ∧
    (appDispatch v tip s).prev = (0, 0) ∧
    (mainDispatch v tip m).canvas = m.canvas ∧
    (mainDispatch v tip m).draw_color = m.draw_color ∧
    (mainDispatch v tip m).brush_thickness = m.brush_thickness ∧
    (mainDispatch v tip m).prev = (0, 0) ∧
    (allFingerVectors.filter (fun w => !(activePatterns.contains w))).length = 28 := by
  have h1 : v ≠ [0, 1, 1, 0, 0] := fun h => hp (by simp [activePatterns, h])
  have h2 : v ≠ [0, 1, 0, 0, 0] := fun h => hp (by simp [activePatterns, h])
  have h3 : v ≠ [1, 1, 1, 1, 1] := fun h => hp (by simp [activePatterns, h])
  have h4 : v ≠ [0, 0, 0, 0, 0] := fun h => hp (by simp [activePatterns, h])
  refine ⟨?_, ?_, ?_, ?_, ?_, ?_, ?_, ?_, by decide⟩ <;>
    simp [appDispatch, mainDispatch, h1, h2, h3, h4]

/-- Witness for c1_idle_fallback at the thumb-only vector [1,0,0,0,0]. -/
theorem c1_idle_fallback_witness :
    (appDispatch [1, 0, 0, 0, 0] (100, 200) ⟨(255, 0, 255), 15, false, (3, 4), []⟩).prev = (0, 0) ∧
    (mainDispatch [1, 0, 0, 0, 0] (100, 200) ⟨(255, 0, 255), 15, (3, 4), []⟩).draw_color = (255, 0, 255) :=
  ⟨(c1_idle_fallback [1, 0, 0, 0, 0] (by decide) (by decide) (100, 200)
      ⟨(255, 0, 255), 15, false, (3, 4), []⟩ ⟨(255, 0, 255), 15, (3, 4), []⟩).2.2.2.1,
   (c1_idle_fallback [1, 0, 0, 0, 0] (by decide) (by decide) (100, 200)
      ⟨(255, 0, 255), 15, false, (3, 4), []⟩ ⟨(255, 0, 255), 15, (3, 4), []⟩).2.2.2.2.2.1⟩

/-- C3 as stated is false: in the desktop shell a fist frame leaves the
drawing color unchanged (purple, not the black eraser sentinel), because
main.py has no fist branch and the vector reaches the idle fallback. -/
theorem c3_fist_counterexample :
    (mainDispatch [0, 0, 0, 0, 0] (100, 200) ⟨(255, 0, 255), 15, (3, 4), []⟩).draw_color ≠ (0, 0, 0) := by
  decide

/-- C3 amended: a fist frame resolves to Eraser only in the streamlit shell,
where it sets the black eraser color, the eraser thickness 50, the eraser
flag, and resets the previous cursor; in the desktop shell a fist reaches the
idle fallback, resetting only the previous cursor and changing nothing else. -/
theorem c3_fist_eraser (tip : Int × Int) (s : AppState) (m : MainState) :
    appDispatch [0, 0, 0, 0, 0] tip s =
      { s with is_eraser_mode := true, draw_color := (0, 0, 0),
               brush_thickness := 50, prev := (0, 0) } ∧
    mainDispatch [0, 0, 0, 0, 0] tip m = { m with prev := (0, 0) } := by
  constructor <;> rfl

/-- In both gesture branches of the selection pattern the previous cursor
stays at the sentinel, and every non-drawing pattern resets it: helper for
the cursor-reset invariant in the streamlit shell. -/
theorem appDispatch_prev_reset (fingers : List Nat) (tip : Int × Int) (s : AppState)
    (h : fingers ≠ [0, 1, 0, 0, 0]) : (appDispatch fingers tip s).prev = (0, 0) := by
  unfold appDispatch
  by_cases h1 : fingers = [0, 1, 1, 0, 0]
  · rw [if_pos h1]
    cases check_selection 640 80 tip.1 tip.2 with
    | none => rfl
    | some c =>
      dsimp only
      by_cases hc : c = (0, 0, 0)
      · rw [if_pos hc]
      · rw [if_neg hc]
  · rw [if_neg h1, if_neg h]
    by_cases h3 : fingers = [1, 1, 1, 1, 1]
    · rw [if_pos h3]
    · rw [if_neg h3]
      by_cases h4 : fingers = [0, 0, 0, 0, 0]
      · rw [if_pos h4]
      · rw [if_neg h4]

/-- Cursor-reset helper for the desktop shell: every non-drawing pattern
resets the previous cursor to the sentinel. -/
theorem mainDispatch_prev_reset (fingers : List Nat) (tip : Int × Int) (m : MainState)
    (h : fingers ≠ [0, 1, 0, 0, 0]) : (mainDispatch fingers tip m).prev = (0, 0) := by
  unfold mainDispatch
  by_cases h1 : fingers = [0, 1, 1, 0, 0]
  · rw [if_pos h1]
    cases check_selection 1280 100 tip.1 tip.2 with
    | none => rfl
    | some c => rfl
  · rw [if_neg h1, if_neg h]
    by_cases h3 : fingers = [1, 1, 1, 1, 1]
    · rw [if_pos h3]
    · rw [if_neg h3]

/-- On a detected hand the streamlit per-frame handler runs the gesture
dispatch on the computed finger vector and the index fingertip. -/
theorem recvApp_hand (lm : Snapshot) (s : AppState) (h : lm ≠ []) :
    recvApp lm s
      = appDispatch (fingersUp lm) ((lm.getD 8 default).x, (lm.getD 8 default).y) s := by
  have hl : ¬ lm.length = 0 := by simp [List.length_eq_zero, h]
  simp [recvApp, getFingerTip, hl]

/-- On a detected hand the desktop per-frame handler runs the gesture
dispatch on the computed finger vector and the index fingertip. -/
theorem recvMain_hand (lm : Snapshot) (m : MainState) (h : lm ≠ []) :
    recvMain lm m
      = mainDispatch (fingersUp lm) ((lm.getD 8 default).x, (lm.getD 8 default).y) m := by
  have hl : ¬ lm.length = 0 := by simp [List.length_eq_zero, h]
  simp [recvMain, getFingerTip, hl]

/-- C2: the finger classifier is the stated pure function of the snapshot:
the empty snapshot gives the zero vector, and on a 21-entry snapshot the
thumb bit is 1 exactly when landmark 4 has strictly smaller x than landmark
3, while the index, middle, ring and pinky bits are 1 exactly when the tip
(landmarks 8, 12, 16, 20) has strictly smaller y than the landmark two
positions earlier; output order is thumb, index, middle, ring, pinky. -/
theorem c2_fingers_up (lm : Snapshot) (h : lm.length = 21) :
    fingersUp [] = [0, 0, 0, 0, 0] ∧
    fingersUp lm =
      [if (lm.getD 4 default).x < (lm.getD 3 default).x then 1 else 0,
       if (lm.getD 8 default).y < (lm.getD 6 default).y then 1 else 0,
       if (lm.getD 12 default).y < (lm.getD 10 default).y then 1 else 0,
       if (lm.getD 16 default).y < (lm.getD 14 default).y then 1 else 0,
       if (lm.getD 20 default).y < (lm.getD 18 default).y then 1 else 0] := by
  have hl : ¬ lm.length = 0 := by omega
  exact ⟨rfl, by simp [fingersUp, hl]⟩

/-- Witness for c2_fingers_up on the synthetic index-up snapshot, which the
classifier maps to the drawing pattern. -/
theorem c2_fingers_up_witness : fingersUp syntheticSnapshot = [0, 1, 0, 0, 0] := by
  have h := (c2_fingers_up syntheticSnapshot (by decide)).2
  rw [h]; decide

/-- C4 as stated is false: on a drawing frame with the previous cursor unset
the canvas is mutated after all, because the code still issues a line call
with both endpoints at the fingertip, painting a thickness-wide dot there. -/
theorem c4_first_frame_counterexample :
    (appDispatch [0, 1, 0, 0, 0] (100, 100)
        ⟨(255, 0, 255), 15, false, (0, 0), []⟩).canvas ≠ [] := by
  decide

/-- C4 amended: on a drawing frame with the previous cursor unset, the cursor
is recorded and exactly one degenerate segment from the fingertip to itself
is drawn (a dot, no segment to any other point); on a subsequent drawing
frame exactly one segment is drawn from the first to the second point.
Both shells behave alike. -/
theorem c4_fresh_stroke (t1 t2 : Int × Int) (s s2 : AppState) (m m2 : MainState)
    (hs : s.prev = (0, 0)) (hs2 : s2.prev = t1) (hm : m.prev = (0, 0)) (hm2 : m2.prev = t1)
    (ht : t1 ≠ (0, 0)) :
    (appDispatch [0, 1, 0, 0, 0] t1 s).canvas
        = s.canvas ++ [⟨t1, t1, s.draw_color, s.brush_thickness⟩] ∧
    (appDispatch [0, 1, 0, 0, 0] t1 s).prev = t1 ∧
    (appDispatch [0, 1, 0, 0, 0] t2 s2).canvas
        = s2.canvas ++ [⟨t1, t2, s2.draw_color, s2.brush_thickness⟩] ∧
    (mainDispatch [0, 1, 0, 0, 0] t1 m).canvas
        = m.canvas ++ [⟨t1, t1, m.draw_color, m.brush_thickness⟩] ∧
    (mainDispatch [0, 1, 0, 0, 0] t1 m).prev = t1 ∧
    (mainDispatch [0, 1, 0, 0, 0] t2 m2).canvas
        = m2.canvas ++ [⟨t1, t2, m2.draw_color, m2.brush_thickness⟩] := by
  refine ⟨?_, ?_, ?_, ?_, ?_, ?_⟩ <;>
    simp [appDispatch, mainDispatch, hs, hs2, hm, hm2, ht] <;>
    exact fun h => absurd h ht

/-- Witness for c4_fresh_stroke: first point (100,100), second point
(110,100), each drawing frame appending one segment. -/
theorem c4_fresh_stroke_witness :
    (appDispatch [0, 1, 0, 0, 0] (110, 100)
        ⟨(255, 0, 255), 15, false, (100, 100),
          [⟨(100, 100), (100, 100), (255, 0, 255), 15⟩]⟩).canvas
      = [⟨(100, 100), (100, 100), (255, 0, 255), 15⟩,
         ⟨(100, 100), (110, 100), (255, 0, 255), 15⟩] := by
  have h := (c4_fresh_stroke (100, 100) (110, 100)
      ⟨(255, 0, 255), 15, false, (0, 0), []⟩
      ⟨(255, 0, 255), 15, false, (100, 100), [⟨(100, 100), (100, 100), (255, 0, 255), 15⟩]⟩
      ⟨(255, 0, 255), 15, (0, 0), []⟩
      ⟨(255, 0, 255), 15, (100, 100), [⟨(100, 100), (100, 100), (255, 0, 255), 15⟩]⟩
      rfl rfl rfl rfl (by decide)).2.2.1
  simpa using h

/-- C8 as stated is false: a frame with no detected hand skips the gesture
block entirely and leaves the previous cursor untouched, here at (5,7)
instead of the sentinel. -/
theorem c8_cursor_counterexample :
    (recvApp [] ⟨(255, 0, 255), 15, false, (5, 7), []⟩).prev ≠ (0, 0) := by
  decide

/-- C8 amended: after every frame with a detected hand whose finger vector is
not the drawing pattern, the previous cursor equals the sentinel (0,0) in
both shells; but a frame with no detected hand leaves the previous cursor
unchanged, so a stroke interrupted by losing the hand can reconnect to the
pre-gap cursor position. -/
theorem c8_cursor_reset (lm : Snapshot) (s : AppState) (m : MainState)
    (hne : lm ≠ []) (hnd : fingersUp lm ≠ [0, 1, 0, 0, 0]) :
    (recvApp lm s).prev = (0, 0) ∧ (recvMain lm m).prev = (0, 0) ∧
    (recvApp [] s).prev = s.prev ∧ (recvMain [] m).prev = m.prev := by
  refine ⟨?_, ?_, rfl, rfl⟩
  · rw [recvApp_hand lm s hne]; exact appDispatch_prev_reset _ _ _ hnd
  · rw [recvMain_hand lm m hne]; exact mainDispatch_prev_reset _ _ _ hnd

/-- Witness for c8_cursor_reset on a 21-entry all-down snapshot. -/
theorem c8_cursor_reset_witness :
    (recvApp (List.replicate 21 ⟨0, 0⟩) ⟨(255, 0, 255), 15, false, (5, 7), []⟩).prev = (0, 0) :=
  (c8_cursor_reset (List.replicate 21 ⟨0, 0⟩)
    ⟨(255, 0, 255), 15, false, (5, 7), []⟩ ⟨(255, 0, 255), 15, (5, 7), []⟩
    (by decide) (by decide)).1

/-- C10: a drawing frame whose fingertip is exactly the origin leaves the
previous cursor equal to the (0,0) sentinel whatever it was before, so the
next drawing frame is treated as fresh: it appends only the degenerate
segment at its own fingertip and no segment reaching back to (0,0).
Both shells behave alike. -/
theorem c10_origin_breaks_stroke (t2 : Int × Int) (s s2 : AppState) (m m2 : MainState)
    (hs2 : s2.prev = (0, 0)) (hm2 : m2.prev = (0, 0)) (ht2 : t2 ≠ (0, 0)) :
    (appDispatch [0, 1, 0, 0, 0] (0, 0) s).prev = (0, 0) ∧
    (mainDispatch [0, 1, 0, 0, 0] (0, 0) m).prev = (0, 0) ∧
    (appDispatch [0, 1, 0, 0, 0] t2 s2).canvas
      = s2.canvas ++ [⟨t2, t2, s2.draw_color, s2.brush_thickness⟩] ∧
    (mainDispatch [0, 1, 0, 0, 0] t2 m2).canvas
      = m2.canvas ++ [⟨t2, t2, m2.draw_color, m2.brush_thickness⟩] := by
  refine ⟨?_, ?_, ?_, ?_⟩ <;> simp [appDispatch, mainDispatch, hs2, hm2]

/-- Witness for c10_origin_breaks_stroke: after a stroke touched the origin,
the next drawing frame at (120,100) draws only the dot there. -/
theorem c10_origin_breaks_stroke_witness :
    (appDispatch [0, 1, 0, 0, 0] (120, 100)
        ⟨(255, 0, 255), 15, false, (0, 0), []⟩).canvas
      = [⟨(120, 100), (120, 100), (255, 0, 255), 15⟩] := by
  have h := (c10_origin_breaks_stroke (120, 100)
      ⟨(255, 0, 255), 15, false, (0, 0), []⟩ ⟨(255, 0, 255), 15, false, (0, 0), []⟩
      ⟨(255, 0, 255), 15, (0, 0), []⟩ ⟨(255, 0, 255), 15, (0, 0), []⟩
      rfl rfl (by decide)).2.2.1
  simpa using h

/-- First-match characterization of the palette loop: if box j contains the
point, the point is not below the band, and no earlier box contains it, the
selection is the color of box j. -/
theorem check_selection_eq_some (W H : Nat) (x y : Int) (j : Nat) (hj : j < 6)
    (hy : ¬ (H : Int) < y) (hbox : insideBox W H j x y)
    (hmin : ∀ k, k < j → ¬ insideBox W H k x y) :
    check_selection W H x y = some (colorOf j) := by
  unfold check_selection
  interval_cases j
  · rw [if_neg hy, if_pos hbox]; rfl
  · rw [if_neg hy, if_neg (hmin 0 (by omega)), if_pos hbox]; rfl
  · rw [if_neg hy, if_neg (hmin 0 (by omega)), if_neg (hmin 1 (by omega)), if_pos hbox]; rfl
  · rw [if_neg hy, if_neg (hmin 0 (by omega)), if_neg (hmin 1 (by omega)),
        if_neg (hmin 2 (by omega)), if_pos hbox]; rfl
  · rw [if_neg hy, if_neg (hmin 0 (by omega)), if_neg (hmin 1 (by omega)),
        if_neg (hmin 2 (by omega)), if_neg (hmin 3 (by omega)), if_pos hbox]; rfl
  · rw [if_neg hy, if_neg (hmin 0 (by omega)), if_neg (hmin 1 (by omega)),
        if_neg (hmin 2 (by omega)), if_neg (hmin 3 (by omega)),
        if_neg (hmin 4 (by omega)), if_pos hbox]; rfl

/-- The palette loop selects nothing when the point is below the band or no
box contains it. -/
theorem check_selection_eq_none (W H : Nat) (x y : Int)
    (h : (H : Int) < y ∨ ∀ j, j < 6 → ¬ insideBox W H j x y) :
    check_selection W H x y = none := by
  unfold check_selection
  rcases h with h | h
  · rw [if_pos h]
  · by_cases hy : (H : Int) < y
    · rw [if_pos hy]
    · rw [if_neg hy, if_neg (h 0 (by omega)), if_neg (h 1 (by omega)),
          if_neg (h 2 (by omega)), if_neg (h 3 (by omega)),
          if_neg (h 4 (by omega)), if_neg (h 5 (by omega))]

/-- C6: palette selection returns none for every point strictly below the
header band regardless of x; and for a point inside the band lying in the
closed span of box i (the header width split into six equal integer-width
boxes) the selection is the color of a box containing the point, namely the
first such box. -/
theorem c6_palette_selection (W H : Nat) (x y : Int) :
    ((H : Int) < y → check_selection W H x y = none) ∧
    (∀ i : Nat, i < 6 → 0 ≤ y → y ≤ (H : Int) →
      ((i * (W / 6) : Nat) : Int) ≤ x → x ≤ (((i + 1) * (W / 6) : Nat) : Int) →
      ∃ j : Nat, j ≤ i ∧ insideBox W H j x y ∧
        check_selection W H x y = some (colorOf j)) := by
  constructor
  · intro h
    exact check_selection_eq_none W H x y (Or.inl h)
  · intro i hi h0 hH hx1 hx2
    have hexi : ∃ k, insideBox W H k x y := ⟨i, hx1, hx2, h0, hH⟩
    have hle : Nat.find hexi ≤ i := Nat.find_min' hexi ⟨hx1, hx2, h0, hH⟩
    refine ⟨Nat.find hexi, hle, Nat.find_spec hexi, ?_⟩
    exact check_selection_eq_some W H x y (Nat.find hexi)
      (lt_of_le_of_lt hle hi) (not_lt.mpr hH) (Nat.find_spec hexi)
      (fun k hk => Nat.find_min hexi hk)

/-- Witness for c6_palette_selection on the 640-wide, 80-high palette of the
streamlit shell: a point below the band selects nothing, a point in the
first box selects the first swatch. -/
theorem c6_palette_selection_witness :
    check_selection 640 80 700 100 = none ∧
    check_selection 640 80 50 0 = some (colorOf 0) := by
  constructor
  · exact (c6_palette_selection 640 80 700 100).1 (by decide)
  · obtain ⟨j, hj, -, heq⟩ := (c6_palette_selection 640 80 50 0).2 0 (by decide)
      (by decide) (by decide) (by decide) (by decide)
    have hj0 : j = 0 := Nat.le_zero.mp hj
    rw [hj0] at heq
    exact heq

/-- C9: palette selection is closed over the six configured swatches; at a
shared boundary x of two adjacent closed boxes the lower-indexed swatch wins
because boxes are tested in index order; and when the frame width is not a
multiple of six, header-band points beyond the right edge of the last box
select nothing. -/
theorem c9_palette_edge_cases (W H : Nat) (x y : Int) (i : Nat) :
    (check_selection W H x y = none ∨
      ∃ j, j < 6 ∧ check_selection W H x y = some (colorOf j)) ∧
    (0 < W / 6 → 1 ≤ i → i ≤ 5 → x = ((i * (W / 6) : Nat) : Int) →
      0 ≤ y → y ≤ (H : Int) →
      check_selection W H x y = some (colorOf (i - 1))) ∧
    (0 ≤ y → y ≤ (H : Int) → ((6 * (W / 6) : Nat) : Int) < x →
      check_selection W H x y = none) := by
  refine ⟨?_, ?_, ?_⟩
  · by_cases hy : (H : Int) < y
    · exact Or.inl (check_selection_eq_none W H x y (Or.inl hy))
    · by_cases hexb : ∃ k, k < 6 ∧ insideBox W H k x y
      · obtain ⟨k, hk6, hk⟩ := hexb
        have hexk : ∃ n, insideBox W H n x y := ⟨k, hk⟩
        have hlt : Nat.find hexk < 6 := lt_of_le_of_lt (Nat.find_min' hexk hk) hk6
        exact Or.inr ⟨Nat.find hexk, hlt,
          check_selection_eq_some W H x y (Nat.find hexk) hlt hy
            (Nat.find_spec hexk) (fun n hn => Nat.find_min hexk hn)⟩
      · push_neg at hexb
        exact Or.inl (check_selection_eq_none W H x y (Or.inr hexb))
  · intro hbw hi1 hi5 hx h0 hH
    refine check_selection_eq_some W H x y (i - 1) (by omega) (not_lt.mpr hH)
      ⟨?_, ?_, h0, hH⟩ ?_
    · subst hx
      interval_cases i <;> (push_cast; omega)
    · subst hx
      interval_cases i <;> (push_cast; omega)
    · intro k hk hbox
      obtain ⟨hk1, hk2, -, -⟩ := hbox
      subst hx
      interval_cases i <;> (interval_cases k <;> (push_cast at hk1 hk2; omega))
  · intro h0 hH hx
    refine check_selection_eq_none W H x y (Or.inr ?_)
    intro j hj hbox
    obtain ⟨-, hj2, -, -⟩ := hbox
    interval_cases j <;> (push_cast at hj2 hx; omega)

/-- Witness for c9_palette_edge_cases on the 640-wide palette (box width
106): the shared boundary x = 106 selects the first swatch, and a band point
beyond 6 * 106 = 636 selects nothing. -/
theorem c9_palette_edge_cases_witness :
    check_selection 640 80 106 0 = some (colorOf 0) ∧
    check_selection 640 80 637 0 = none := by
  constructor
  · exact (c9_palette_edge_cases 640 80 106 0 1).2.1 (by decide) (by decide)
      (by decide) (by decide) (by decide) (by decide)
  · exact (c9_palette_edge_cases 640 80 637 0 0).2.2 (by decide) (by decide) (by decide)

/-- C5 as stated is false: a background canvas pixel need not leave the
camera pixel unchanged, because the merge ORs the canvas into the frame.
The near-black canvas pixel (10,10,10) has luminance below the threshold,
yet it turns a black camera pixel into (10,10,10). -/
theorem c5_composite_counterexample :
    bgr2gray ⟨10, 10, 10⟩ ≤ 20 ∧
    compositePixel ⟨0, 0, 0⟩ ⟨10, 10, 10⟩ ≠ ⟨0, 0, 0⟩ := by decide

/-- C5 amended: where the canvas pixel is non-background (luminance above
the threshold 20) it replaces the camera pixel; where it is background, the
output is the camera pixel bitwise-ORed with the canvas pixel, which equals
the camera pixel exactly in the all-zero background case. -/
theorem c5_composite (f c : Pixel) (hb : f.b < 256) (hg : f.g < 256) (hr : f.r < 256) :
    (20 < bgr2gray c → compositePixel f c = c) ∧
    (bgr2gray c ≤ 20 →
      compositePixel f c = ⟨f.b ||| c.b, f.g ||| c.g, f.r ||| c.r⟩) ∧
    (bgr2gray c ≤ 20 → c = backgroundPixel → compositePixel f c = f) := by
  have hmask : ∀ n : Nat, n < 256 → n &&& 255 = n := by
    intro n hn
    have h255 : (255 : Nat) = 2 ^ 8 - 1 := by norm_num
    rw [h255]
    exact Nat.and_pow_two_sub_one_of_lt_two_pow hn
  obtain ⟨fb, fg, fr⟩ := f
  obtain ⟨cb, cg, cr⟩ := c
  refine ⟨fun h => ?_, fun h => ?_, fun h hc => ?_⟩
  · simp [compositePixel, maskInv, h]
  · simp [compositePixel, maskInv, not_lt.mpr h, hmask fb hb, hmask fg hg, hmask fr hr]
  · obtain ⟨rfl, rfl, rfl⟩ : cb = 0 ∧ cg = 0 ∧ cr = 0 := by
      simpa [backgroundPixel, Pixel.mk.injEq] using hc
    simp [compositePixel, maskInv, not_lt.mpr h, hmask fb hb, hmask fg hg, hmask fr hr]

/-- Witness for c5_composite: a purple canvas pixel over a white camera pixel
replaces it, and a zero canvas pixel leaves the camera pixel unchanged. -/
theorem c5_composite_witness :
    compositePixel ⟨200, 150, 100⟩ ⟨255, 0, 255⟩ = ⟨255, 0, 255⟩ ∧
    compositePixel ⟨200, 150, 100⟩ ⟨0, 0, 0⟩ = ⟨200, 150, 100⟩ :=
  ⟨(c5_composite ⟨200, 150, 100⟩ ⟨255, 0, 255⟩ (by decide) (by decide) (by decide)).1
      (by decide),
   (c5_composite ⟨200, 150, 100⟩ ⟨0, 0, 0⟩ (by decide) (by decide) (by decide)).2.2
      (by decide) rfl⟩

/-- C7: clearing resets every pixel to the all-zero background and is
idempotent, both at the pixel level (the canvas is replaced by a zero
buffer) and on the canvas trace of the clear-gesture branch. -/
theorem c7_clear_idempotent (c : PixelCanvas) (i j : Nat) (tip : Int × Int) (s : AppState) :
    clearCanvas c i j = backgroundPixel ∧
    clearCanvas (clearCanvas c) = clearCanvas c ∧
    (appDispatch [1, 1, 1, 1, 1] tip s).canvas = [] ∧
    (appDispatch [1, 1, 1, 1, 1] tip (appDispatch [1, 1, 1, 1, 1] tip s)).canvas
      = (appDispatch [1, 1, 1, 1, 1] tip s).canvas :=
  ⟨rfl, rfl, rfl, rfl⟩
